import Mathlib

/-!
Verification of `src/artifacts/tracie/cr3-kmod/cr3dump.c`.

The module walks the host process list once on load and prints, for each
process that has a primary (`task->mm`) or fallback (`task->active_mm`)
memory descriptor, one line with the pid, the command name, and
`virt_to_phys(mm->pgd)`.  On unload it prints a single banner line.

Shallow embedding: the host process table is an explicit `List TaskStruct`,
the host translation primitive `virt_to_phys` is a parameter `Nat → Nat`,
and the printk stream is the returned `List LogLine`.
-/

/-- Embedding of `struct mm_struct` as used by the module: only the `pgd`
field (a kernel virtual address, a machine word) is read. -/
structure MmStruct where
  pgd : Nat
deriving DecidableEq, Repr

/-- Embedding of `struct task_struct` as used by the module: pid (`int`),
`comm` (a short string), and the two memory-descriptor pointers, with
`none` standing for NULL. -/
structure TaskStruct where
  pid : Int
  comm : String
  mm : Option MmStruct
  active_mm : Option MmStruct
deriving DecidableEq, Repr

/-- One printk line: either a fixed banner string or a per-process report
carrying the pid, comm, and translated cr3 value (the structured content
of the formatted line). -/
inductive LogLine where
  | banner : String → LogLine
  | report : Int → String → Nat → LogLine
deriving DecidableEq, Repr

/-- Lines 23-25 of `cr3dump.c`: `mm = task->mm; if (!mm) mm = task->active_mm;`. -/
def resolved_mm (task : TaskStruct) : Option MmStruct :=
  match task.mm with
  | some m => some m
  | none => task.active_mm

/-- The body of the `for_each_process` loop (lines 22-34): resolve the
memory descriptor, `continue` (producing no line) if it is NULL, otherwise
emit one report line with `virt_to_phys(mm->pgd)`. -/
def cr3_dump_body (virt_to_phys : Nat → Nat) (task : TaskStruct) : Option LogLine :=
  match resolved_mm task with
  | none => none
  | some m => some (LogLine.report task.pid task.comm (virt_to_phys m.pgd))

/-- The banner printed at line 20 of `cr3dump.c`. -/
def loadBanner : LogLine := LogLine.banner "=== [CR3 Dump Module Loaded] ==="

/-- The banner printed at line 41 of `cr3dump.c`. -/
def unloadBanner : LogLine := LogLine.banner "=== [CR3 Dump Module Unloaded] ==="

/-- `cr3_dump_init` (lines 16-37): prints the load banner, runs the loop over
the host process table, and returns 0.  The result is the printk stream
paired with the C return value. -/
def cr3_dump_init (virt_to_phys : Nat → Nat) (tasks : List TaskStruct) :
    List LogLine × Int :=
  (loadBanner :: tasks.filterMap (cr3_dump_body virt_to_phys), 0)

/-- `cr3_dump_exit` (lines 39-42): prints the unload banner and nothing else. -/
def cr3_dump_exit : List LogLine := [unloadBanner]

/-- Number rendered the way printk `%lx` renders it: lowercase hexadecimal,
no leading zeros. -/
def hexStr (n : Nat) : String := String.mk (Nat.toDigits 16 n)

/-- The text of a line as printk formats it (line 32 of `cr3dump.c` for
reports, trailing newline omitted). -/
def renderLine : LogLine → String
  | LogLine.banner s => s
  | LogLine.report pid comm cr3 =>
      "PID: " ++ toString pid ++ " | Comm: " ++ comm ++
        " | CR3 (PGD phys): 0x" ++ hexStr cr3

/-- Whether a line is a banner line. -/
def isBanner : LogLine → Bool
  | LogLine.banner _ => true
  | LogLine.report _ _ _ => false

/-- The pid carried by a report line, `none` for banners. -/
def reportPid : LogLine → Option Int
  | LogLine.banner _ => none
  | LogLine.report p _ _ => some p

/-- The (pid, comm) pair carried by a report line, `none` for banners. -/
def reportKey : LogLine → Option (Int × String)
  | LogLine.banner _ => none
  | LogLine.report p c _ => some (p, c)

/-- The report lines of a stream that mention a given pid. -/
def reportsFor (pid : Int) (ls : List LogLine) : List LogLine :=
  ls.filter (fun l => reportPid l == some pid)

/-- Whether a task has a primary or fallback memory descriptor. -/
def hasMm (t : TaskStruct) : Bool := t.mm.isSome || t.active_mm.isSome

/-- The host state visible to the module: the process table and the
translation primitive.  The module only reads it. -/
structure KernelState where
  tasks : List TaskStruct
  virt_to_phys : Nat → Nat

/-- `cr3_dump_init` as a state transformer over the host state: the source
contains no store to any task, memory descriptor, or list structure, so the
state passes through unchanged alongside the printk stream and return code. -/
def cr3_dump_init_st (s : KernelState) : KernelState × (List LogLine × Int) :=
  (s, cr3_dump_init s.virt_to_phys s.tasks)

/-- `cr3_dump_exit` as a state transformer: no store to host state. -/
def cr3_dump_exit_st (s : KernelState) : KernelState × List LogLine :=
  (s, cr3_dump_exit)

/-- The printk lines of the second activation in a
load / unload / load sequence, with the host state threaded through. -/
def secondActivationLines (s : KernelState) : List LogLine :=
  ((cr3_dump_init_st ((cr3_dump_exit_st ((cr3_dump_init_st s).1)).1)).2).1

/-- Descriptor D1 of the spec scenario. -/
def D1 : MmStruct := ⟨0xA000⟩

/-- Descriptor D2 of the spec scenario. -/
def D2 : MmStruct := ⟨0xB000⟩

/-- The translation mapping of the spec scenario: D1.root ↦ 0x1000,
D2.root ↦ 0x2000. -/
def scenarioTr : Nat → Nat :=
  fun v => if v = 0xA000 then 0x1000 else if v = 0xB000 then 0x2000 else 0

/-- The process table of the spec scenario. -/
def scenarioTasks : List TaskStruct :=
  [⟨1, "init", some D1, none⟩, ⟨50, "worker", none, some D2⟩,
   ⟨70, "zombie", none, none⟩]

/-- C4: on the concrete scenario table, activation emits exactly the banner,
then the report for pid 1 at 0x1000, then the report for pid 50 at 0x2000,
in enumeration order, and no line for pid 70. -/
theorem scenario_exact_output :
    cr3_dump_init scenarioTr scenarioTasks =
      ([loadBanner, LogLine.report 1 "init" 0x1000,
        LogLine.report 50 "worker" 0x2000], 0) ∧
    reportsFor 70 (cr3_dump_init scenarioTr scenarioTasks).1 = [] := by
  constructor <;> rfl

/-- C10: for every process table, `cr3_dump_init` terminates (it is a total
function of the finite table) and returns 0 unconditionally. -/
theorem init_returns_zero (virt_to_phys : Nat → Nat) (tasks : List TaskStruct) :
    (cr3_dump_init virt_to_phys tasks).2 = 0 := rfl

lemma resolved_mm_isSome (t : TaskStruct) : (resolved_mm t).isSome = hasMm t := by
  unfold resolved_mm hasMm
  cases t.mm <;> simp

lemma cr3_dump_body_eq_some {vt : Nat → Nat} {t : TaskStruct} {m : MmStruct}
    (h : resolved_mm t = some m) :
    cr3_dump_body vt t = some (LogLine.report t.pid t.comm (vt m.pgd)) := by
  unfold cr3_dump_body
  rw [h]

lemma cr3_dump_body_none {vt : Nat → Nat} {t : TaskStruct}
    (h : resolved_mm t = none) : cr3_dump_body vt t = none := by
  unfold cr3_dump_body
  rw [h]

lemma cr3_dump_body_pid {vt : Nat → Nat} {t : TaskStruct} {l : LogLine}
    (h : cr3_dump_body vt t = some l) : reportPid l = some t.pid := by
  unfold cr3_dump_body at h
  cases hr : resolved_mm t with
  | none => rw [hr] at h; exact absurd h (by simp)
  | some m =>
      rw [hr] at h
      simp only [Option.some.injEq] at h
      subst h
      rfl

lemma cr3_dump_body_key {vt : Nat → Nat} {t : TaskStruct} {l : LogLine}
    (h : cr3_dump_body vt t = some l) : reportKey l = some (t.pid, t.comm) := by
  unfold cr3_dump_body at h
  cases hr : resolved_mm t with
  | none => rw [hr] at h; exact absurd h (by simp)
  | some m =>
      rw [hr] at h
      simp only [Option.some.injEq] at h
      subst h
      rfl

lemma cr3_dump_body_not_banner {vt : Nat → Nat} {t : TaskStruct} {l : LogLine}
    (h : cr3_dump_body vt t = some l) : isBanner l = false := by
  unfold cr3_dump_body at h
  cases hr : resolved_mm t with
  | none => rw [hr] at h; exact absurd h (by simp)
  | some m =>
      rw [hr] at h
      simp only [Option.some.injEq] at h
      subst h
      rfl

lemma reportsFor_cons_self {p : Int} {x : LogLine} (ls : List LogLine)
    (h : reportPid x = some p) : reportsFor p (x :: ls) = x :: reportsFor p ls := by
  simp [reportsFor, List.filter_cons, h]

lemma reportsFor_cons_of_ne {p q : Int} {x : LogLine} (ls : List LogLine)
    (h : reportPid x = some q) (hne : q ≠ p) :
    reportsFor p (x :: ls) = reportsFor p ls := by
  simp [reportsFor, List.filter_cons, h, hne]

lemma reportsFor_cons_none {p : Int} {x : LogLine} (ls : List LogLine)
    (h : reportPid x = none) : reportsFor p (x :: ls) = reportsFor p ls := by
  simp [reportsFor, List.filter_cons, h]

lemma reportsFor_nil_of (vt : Nat → Nat) (p : Int) :
    ∀ ts : List TaskStruct, (∀ u ∈ ts, u.pid = p → cr3_dump_body vt u = none) →
      reportsFor p (ts.filterMap (cr3_dump_body vt)) = [] := by
  intro ts
  induction ts with
  | nil => intro _; rfl
  | cons u rest ih =>
      intro h
      cases hb : cr3_dump_body vt u with
      | none =>
          rw [List.filterMap_cons_none hb]
          exact ih fun u' hu' => h u' (List.mem_cons_of_mem _ hu')
      | some l =>
          rw [List.filterMap_cons_some hb]
          have hne : u.pid ≠ p := by
            intro he
            rw [h u (List.mem_cons_self u rest) he] at hb
            exact absurd hb (by simp)
          rw [reportsFor_cons_of_ne _ (cr3_dump_body_pid hb) hne]
          exact ih fun u' hu' => h u' (List.mem_cons_of_mem _ hu')

lemma reportsFor_filterMap_single {vt : Nat → Nat} :
    ∀ tasks : List TaskStruct, (tasks.map TaskStruct.pid).Nodup →
      ∀ t ∈ tasks, hasMm t = true →
        ∃ a, reportsFor t.pid (tasks.filterMap (cr3_dump_body vt)) =
          [LogLine.report t.pid t.comm a] := by
  intro tasks
  induction tasks with
  | nil => intro _ t ht; exact absurd ht (List.not_mem_nil t)
  | cons u rest ih =>
      intro hnd t ht hm
      rw [List.map_cons, List.nodup_cons] at hnd
      obtain ⟨hu, hndr⟩ := hnd
      rcases List.mem_cons.mp ht with rfl | htr
      · have hsome : (resolved_mm t).isSome = true := by
          rw [resolved_mm_isSome]; exact hm
        obtain ⟨m, hmm⟩ := Option.isSome_iff_exists.mp hsome
        refine ⟨vt m.pgd, ?_⟩
        rw [List.filterMap_cons_some (cr3_dump_body_eq_some hmm)]
        rw [reportsFor_cons_self _
          (rfl : reportPid (LogLine.report t.pid t.comm (vt m.pgd)) = some t.pid)]
        have hrest : reportsFor t.pid (rest.filterMap (cr3_dump_body vt)) = [] := by
          apply reportsFor_nil_of
          intro u' hu' he
          have : t.pid ∈ rest.map TaskStruct.pid := by
            rw [← he]; exact List.mem_map_of_mem TaskStruct.pid hu'
          exact absurd this hu
        rw [hrest]
      · have hne : u.pid ≠ t.pid := by
          intro he
          have : t.pid ∈ rest.map TaskStruct.pid := List.mem_map_of_mem TaskStruct.pid htr
          rw [← he] at this
          exact hu this
        obtain ⟨a, ha⟩ := ih hndr t htr hm
        refine ⟨a, ?_⟩
        cases hb : cr3_dump_body vt u with
        | none => rw [List.filterMap_cons_none hb]; exact ha
        | some l =>
            rw [List.filterMap_cons_some hb]
            rw [reportsFor_cons_of_ne _ (cr3_dump_body_pid hb) hne]
            exact ha

/-- C1: under the host invariant that pids in the process table are distinct,
every enumerated process with a non-absent primary or fallback memory
descriptor gets exactly one report line, whose pid and comm equal that
process's recorded pid and comm. -/
theorem one_report_per_eligible_process (vt : Nat → Nat) (tasks : List TaskStruct)
    (hnd : (tasks.map TaskStruct.pid).Nodup) (t : TaskStruct) (ht : t ∈ tasks)
    (hm : t.mm.isSome = true ∨ t.active_mm.isSome = true) :
    ∃ a, reportsFor t.pid (cr3_dump_init vt tasks).1 =
      [LogLine.report t.pid t.comm a] := by
  have hm' : hasMm t = true := by
    unfold hasMm
    rcases hm with h | h <;> simp [h]
  have : (cr3_dump_init vt tasks).1 =
      loadBanner :: tasks.filterMap (cr3_dump_body vt) := rfl
  rw [this, reportsFor_cons_none (tasks.filterMap (cr3_dump_body vt))
    (rfl : reportPid loadBanner = none)]
  exact reportsFor_filterMap_single tasks hnd t ht hm'

theorem one_report_per_eligible_process_witness :
    ∃ a, reportsFor 7
        (cr3_dump_init (fun v => v + 2) [⟨7, "bash", some ⟨32⟩, none⟩]).1 =
      [LogLine.report 7 "bash" a] :=
  one_report_per_eligible_process (fun v => v + 2) [⟨7, "bash", some ⟨32⟩, none⟩]
    (by decide) ⟨7, "bash", some ⟨32⟩, none⟩ (by decide) (by decide)

/-- C2: under distinct pids, a process whose primary and fallback memory
descriptors are both absent contributes no report line — its loop body
produces nothing, no line in the stream carries its pid — and the call
still returns the success code 0 (no error raised or recorded). -/
theorem no_report_without_descriptor (vt : Nat → Nat) (tasks : List TaskStruct)
    (hnd : (tasks.map TaskStruct.pid).Nodup) (t : TaskStruct) (ht : t ∈ tasks)
    (h1 : t.mm = none) (h2 : t.active_mm = none) :
    cr3_dump_body vt t = none ∧
    reportsFor t.pid (cr3_dump_init vt tasks).1 = [] ∧
    (cr3_dump_init vt tasks).2 = 0 := by
  have hbody : cr3_dump_body vt t = none :=
    cr3_dump_body_none (by simp [resolved_mm, h1, h2])
  refine ⟨hbody, ?_, rfl⟩
  have hinit : (cr3_dump_init vt tasks).1 =
      loadBanner :: tasks.filterMap (cr3_dump_body vt) := rfl
  rw [hinit, reportsFor_cons_none (tasks.filterMap (cr3_dump_body vt))
    (rfl : reportPid loadBanner = none)]
  apply reportsFor_nil_of
  intro u hu he
  have hut : u = t := List.inj_on_of_nodup_map hnd hu ht he
  rw [hut]
  exact hbody

theorem no_report_without_descriptor_witness :
    cr3_dump_body (fun v => v) ⟨9, "kthread", none, none⟩ = none ∧
    reportsFor 9 (cr3_dump_init (fun v => v) [⟨9, "kthread", none, none⟩]).1 = [] ∧
    (cr3_dump_init (fun v => v) [⟨9, "kthread", none, none⟩]).2 = 0 :=
  no_report_without_descriptor (fun v => v) [⟨9, "kthread", none, none⟩]
    (by decide) ⟨9, "kthread", none, none⟩ (by decide) rfl rfl

/-- C3: the loop body resolves the memory descriptor with this exact
preference: a present primary descriptor is used unconditionally (the
fallback is never consulted, even when also present); with the primary
absent, a present fallback descriptor is used; with both absent, the
process is skipped. -/
theorem descriptor_preference_order (vt : Nat → Nat) (t : TaskStruct) :
    (∀ m, t.mm = some m →
      cr3_dump_body vt t = some (LogLine.report t.pid t.comm (vt m.pgd))) ∧
    (t.mm = none → ∀ m, t.active_mm = some m →
      cr3_dump_body vt t = some (LogLine.report t.pid t.comm (vt m.pgd))) ∧
    (t.mm = none → t.active_mm = none → cr3_dump_body vt t = none) := by
  refine ⟨?_, ?_, ?_⟩
  · intro m hm
    exact cr3_dump_body_eq_some (by simp [resolved_mm, hm])
  · intro h1 m hm
    exact cr3_dump_body_eq_some (by simp [resolved_mm, h1, hm])
  · intro h1 h2
    exact cr3_dump_body_none (by simp [resolved_mm, h1, h2])

theorem descriptor_preference_order_witness :
    cr3_dump_body (fun v => v + 1) ⟨1, "swapper", some ⟨4096⟩, some ⟨8192⟩⟩ =
      some (LogLine.report 1 "swapper" (4096 + 1)) :=
  (descriptor_preference_order (fun v => v + 1)
    ⟨1, "swapper", some ⟨4096⟩, some ⟨8192⟩⟩).1 ⟨4096⟩ rfl

lemma filterMap_body_not_banner {vt : Nat → Nat} {tasks : List TaskStruct} :
    ∀ l ∈ tasks.filterMap (cr3_dump_body vt), isBanner l = false := by
  intro l hl
  obtain ⟨t, _, hb⟩ := List.mem_filterMap.mp hl
  exact cr3_dump_body_not_banner hb

/-- C5: for every process table, activation emits exactly one banner line,
which is the first line of the stream (so it precedes every per-process
report line, none of which is a banner); deactivation emits exactly one
banner line and nothing else. -/
theorem banner_uniqueness_and_position (vt : Nat → Nat) (tasks : List TaskStruct) :
    ((cr3_dump_init vt tasks).1.countP fun l => isBanner l) = 1 ∧
    (cr3_dump_init vt tasks).1.head? = some loadBanner ∧
    (∀ l ∈ (cr3_dump_init vt tasks).1.tail, isBanner l = false) ∧
    (cr3_dump_exit.countP fun l => isBanner l) = 1 ∧
    cr3_dump_exit = [unloadBanner] := by
  refine ⟨?_, rfl, ?_, rfl, rfl⟩
  · have h0 : ((tasks.filterMap (cr3_dump_body vt)).countP fun l => isBanner l) = 0 := by
      rw [List.countP_eq_zero]
      intro l hl
      simp [filterMap_body_not_banner l hl]
    have hinit : (cr3_dump_init vt tasks).1 =
        loadBanner :: tasks.filterMap (cr3_dump_body vt) := rfl
    rw [hinit, List.countP_cons_of_pos _ _ (by rfl), h0]
  · intro l hl
    exact filterMap_body_not_banner l hl

theorem banner_uniqueness_and_position_witness :
    ((cr3_dump_init (fun v => v) []).1.countP fun l => isBanner l) = 1 :=
  (banner_uniqueness_and_position (fun v => v) []).1

/-- C6: every per-process line emitted by activation comes from some
enumerated task with a resolvable descriptor, carries that task's pid and
comm and the translation of the resolved descriptor's pgd, and renders as
`PID: <integer> | Comm: <string> | CR3 (PGD phys): 0x<hex>` with the
address in unsigned hexadecimal. -/
theorem report_line_format (vt : Nat → Nat) (tasks : List TaskStruct) (l : LogLine)
    (hl : l ∈ (cr3_dump_init vt tasks).1.tail) :
    ∃ t m, t ∈ tasks ∧ resolved_mm t = some m ∧
      l = LogLine.report t.pid t.comm (vt m.pgd) ∧
      renderLine l =
        "PID: " ++ toString t.pid ++ " | Comm: " ++ t.comm ++
          " | CR3 (PGD phys): 0x" ++ hexStr (vt m.pgd) := by
  have hl' : l ∈ tasks.filterMap (cr3_dump_body vt) := hl
  obtain ⟨t, ht, hb⟩ := List.mem_filterMap.mp hl'
  cases hr : resolved_mm t with
  | none => rw [cr3_dump_body_none hr] at hb; exact absurd hb (by simp)
  | some m =>
      rw [cr3_dump_body_eq_some hr] at hb
      simp only [Option.some.injEq] at hb
      subst hb
      exact ⟨t, m, ht, hr, rfl, rfl⟩

theorem report_line_format_witness :
    ∃ t m, t ∈ [(⟨2, "sh", some ⟨16⟩, none⟩ : TaskStruct)] ∧
      resolved_mm t = some m ∧
      LogLine.report 2 "sh" 16 = LogLine.report t.pid t.comm ((fun v => v) m.pgd) ∧
      renderLine (LogLine.report 2 "sh" 16) =
        "PID: " ++ toString t.pid ++ " | Comm: " ++ t.comm ++
          " | CR3 (PGD phys): 0x" ++ hexStr ((fun v => v) m.pgd) :=
  report_line_format (fun v => v) [⟨2, "sh", some ⟨16⟩, none⟩]
    (LogLine.report 2 "sh" 16) (by decide)

/-- C7: with the host state (process table and translation mapping)
unchanged, the lines of a first activation and of a second activation after
an intervening deactivation contain exactly the same lines — the same set
of per-process report lines. -/
theorem repeated_activation_same_report_set (s : KernelState) (l : LogLine) :
    l ∈ ((cr3_dump_init_st s).2).1 ↔ l ∈ secondActivationLines s := Iff.rfl

lemma filterMap_key_eq (vt : Nat → Nat) :
    ∀ ts : List TaskStruct,
      (ts.filterMap (cr3_dump_body vt)).filterMap reportKey =
        (ts.filter hasMm).map fun t => (t.pid, t.comm) := by
  intro ts
  induction ts with
  | nil => rfl
  | cons u rest ih =>
      cases hr : resolved_mm u with
      | none =>
          have hm : hasMm u = false := by rw [← resolved_mm_isSome, hr]; rfl
          rw [List.filterMap_cons_none (cr3_dump_body_none hr), List.filter_cons]
          simp [hm, ih]
      | some m =>
          have hm : hasMm u = true := by rw [← resolved_mm_isSome, hr]; rfl
          rw [List.filterMap_cons_some (cr3_dump_body_eq_some hr),
            List.filterMap_cons_some
              (rfl : reportKey (LogLine.report u.pid u.comm (vt m.pgd)) =
                some (u.pid, u.comm)),
            List.filter_cons]
          simp [hm, ih]

/-- C8: the (pid, comm) sequence of the report lines of one activation is
exactly the host enumeration order restricted to tasks with a resolvable
descriptor: no reordering, no duplication, no interleaving. -/
theorem report_sequence_matches_enumeration (vt : Nat → Nat)
    (tasks : List TaskStruct) :
    (cr3_dump_init vt tasks).1.filterMap reportKey =
      (tasks.filter hasMm).map fun t => (t.pid, t.comm) := by
  have hinit : (cr3_dump_init vt tasks).1 =
      loadBanner :: tasks.filterMap (cr3_dump_body vt) := rfl
  rw [hinit, List.filterMap_cons_none (rfl : reportKey loadBanner = none)]
  exact filterMap_key_eq vt tasks

/-- C9: threading the host state through both entry points, activation and
deactivation return the state exactly as received (no mutation of any task,
descriptor, or the table; no retained reference), their outputs depend only
on that state, and deactivation emits its single banner line only. -/
theorem no_host_state_mutation (s : KernelState) :
    (cr3_dump_init_st s).1 = s ∧ (cr3_dump_exit_st s).1 = s ∧
    (cr3_dump_init_st s).2 = cr3_dump_init s.virt_to_phys s.tasks ∧
    (cr3_dump_exit_st s).2 = [unloadBanner] :=
  ⟨rfl, rfl, rfl, rfl⟩
